import Mathlib

/-!
Verification development for the transcription lifecycle of telly-spelly
(source file src/transcriber.py).

The development shallowly embeds, over plain Lean data:

  * the post-processing function apply_replacements, including a model of
    the stdlib call re.sub(re.escape(pattern), replacement, text, IGNORECASE)
    it delegates to: a case-insensitive literal leftmost scan of the escaped
    pattern, together with the substitution-template expansion that re.sub
    performs on the replacement string (backslash escapes are interpreted,
    invalid escapes raise).  The template model covers single-character
    escapes and single-digit group references; multi-digit octal escapes and
    angle-bracket group references are not reachable from the claims checked
    here and are left out.
  * TranscriptionWorker.run as a function from the job inputs (existence of
    the audio artifact, the decode result returned by the opaque speech
    model, the cached replacement pairs, and whether the storage delete in
    the cleanup phase succeeds) to the emitted observation list plus the
    effects the claims mention.  The try/except/finally structure of the
    Python method is flattened into the branches of the function; every
    exception path of the try block produces the error and finished
    observations of the except block, and the raised flag records whether
    anything escaped the method (it never does, all paths are caught).
  * WhisperTranscriber as a state machine: the fields model, a generation
    counter distinguishing freshly loaded handles, the running-worker flag,
    and the usage counter _transcription_count, with the operations
    load_model, reload_model, cleanup and transcribe_file.  External model
    loading is abstracted by a boolean saying whether the load succeeds;
    a failing load re-raises, which the operations surface as a raised flag
    while still exposing the state they leave behind.
-/

set_option maxRecDepth 100000

namespace TellySpelly

/-- Strings are modelled as lists of characters so that list lemmas apply. -/
abbrev Str := List Char

/-- Decidable equality for the Except values the embedding produces. -/
instance exceptDecEq {ε α : Type} [DecidableEq ε] [DecidableEq α] :
    DecidableEq (Except ε α)
  | Except.ok a, Except.ok b =>
    if h : a = b then isTrue (by rw [h])
    else isFalse (by intro hh; cases hh; exact h rfl)
  | Except.ok _, Except.error _ => isFalse (by intro hh; cases hh)
  | Except.error _, Except.ok _ => isFalse (by intro hh; cases hh)
  | Except.error e, Except.error f =>
    if h : e = f then isTrue (by rw [h])
    else isFalse (by intro hh; cases hh; exact h rfl)

/-- Case-insensitive character comparison, as IGNORECASE matching does. -/
def charIEq (a b : Char) : Bool := a.toLower == b.toLower

/-- Does pat match at the head of s, case-insensitively and literally. -/
def startsWithCI : Str → Str → Bool
  | [], _ => true
  | _ :: _, [] => false
  | p :: ps, c :: cs => charIEq p c && startsWithCI ps cs

/-- Leftmost-match scan of re.sub for a nonempty literal pattern: at each
position try the (case-insensitive) pattern; on a match emit the expanded
replacement and resume after the matched span, otherwise copy one character.
The fuel argument is instantiated with the length of the string, which each
step strictly consumes, so the fallback branch is never reached; fuel makes
the definition structurally recursive and kernel-evaluable. -/
def subScanFuel (pat rep : Str) : Nat → Str → Str
  | _, [] => []
  | 0, s => s
  | fuel + 1, c :: cs =>
    if startsWithCI pat (c :: cs) then
      rep ++ subScanFuel pat rep fuel (cs.drop (pat.length - 1))
    else
      c :: subScanFuel pat rep fuel cs

/-- Scan of re.sub for the empty pattern: the empty pattern matches before
every character and once more at the end of the string. -/
def subScanEmpty (rep : Str) : Str → Str
  | [] => rep
  | c :: cs => rep ++ c :: subScanEmpty rep cs

/-- All-occurrence, case-insensitive, literal substitution: the behaviour of
re.sub(re.escape(pat), rep, text, IGNORECASE) once the replacement template
rep has already been expanded to literal text. -/
def reSubLiteralCI (pat rep text : Str) : Str :=
  match pat with
  | [] => subScanEmpty rep text
  | _ :: _ => subScanFuel pat rep text.length text

/-- Error text of re.sub for a backslash at the end of the template. -/
def msgBadEscEnd : Str := ("bad escape (end of pattern)").data

/-- Error text of re.sub for a group reference in the template; the pattern
is re.escape output, so it has no groups and every reference is invalid. -/
def msgBadGroup : Str := ("invalid group reference").data

/-- Error text of re.sub for an unknown letter escape in the template. -/
def msgBadEscape : Str := ("bad escape").data

/-- Expansion of one escaped character of a re.sub replacement template:
known single-character escapes expand to their control character, an
escaped backslash stays a backslash, digits are group references (invalid
here, the escaped pattern has no groups, except the octal escape zero),
other letters are rejected, and any other character keeps the backslash. -/
def escItem (d : Char) : Except Str Str :=
  if d = '\\' then Except.ok ['\\']
  else if d = 'n' then Except.ok ['\n']
  else if d = 't' then Except.ok ['\t']
  else if d = 'r' then Except.ok ['\r']
  else if d = 'a' then Except.ok [Char.ofNat 7]
  else if d = 'b' then Except.ok [Char.ofNat 8]
  else if d = 'f' then Except.ok [Char.ofNat 12]
  else if d = 'v' then Except.ok [Char.ofNat 11]
  else if d = '0' then Except.ok [Char.ofNat 0]
  else if d.isDigit then Except.error msgBadGroup
  else if d.isAlpha then Except.error msgBadEscape
  else Except.ok ['\\', d]

/-- Template expansion of a re.sub replacement string; the boolean records
whether a backslash is pending from the previous character. -/
def parseTemplateAux : Bool → Str → Except Str Str
  | false, [] => Except.ok []
  | false, c :: rest =>
    if c = '\\' then parseTemplateAux true rest
    else (parseTemplateAux false rest).map (fun l => c :: l)
  | true, [] => Except.error msgBadEscEnd
  | true, d :: rest =>
    match escItem d with
    | Except.error m => Except.error m
    | Except.ok pre => (parseTemplateAux false rest).map (fun l => pre ++ l)

/-- Template expansion of a re.sub replacement string, from the start. -/
def parseTemplate (rep : Str) : Except Str Str := parseTemplateAux false rep

/-- Model of re.sub(re.escape(pat), rep, text, flags=re.IGNORECASE): the
escaped pattern matches literally and case-insensitively, while the
replacement is first expanded as a substitution template and a bad template
raises (surfaced as the error case). -/
def pyReSub (pat rep text : Str) : Except Str Str :=
  (parseTemplate rep).map (fun t => reSubLiteralCI pat t text)

/-- Embedding of apply_replacements from src/transcriber.py: an empty
replacement mapping returns the text unchanged, otherwise each pair is
applied by re.sub in insertion order; an exception from re.sub propagates
to the caller (the error case). -/
def apply_replacements (text : Str) (replacements : List (Str × Str)) :
    Except Str Str :=
  match replacements with
  | [] => Except.ok text
  | _ :: _ =>
    replacements.foldlM (fun acc pr => pyReSub pr.1 pr.2 acc) text

/-- Modelled from the spec words of claim C5: every replacement pair applied
in insertion order as a case-insensitive substitution with BOTH the pattern
and the replacement treated as literal text, never as template syntax.  This
is the comparison point for the refinement claim, not the code. -/
def applyReplacementsSpecLiteral (text : Str)
    (replacements : List (Str × Str)) : Str :=
  replacements.foldl (fun acc pr => reSubLiteralCI pr.1 pr.2 acc) text

/-- Whitespace test of the Python str.strip default character set. -/
def isPySpace (c : Char) : Bool :=
  c == ' ' || c == '\t' || c == '\n' || c == '\r' ||
    c == Char.ofNat 11 || c == Char.ofNat 12

/-- Embedding of str.strip: drop whitespace from both ends. -/
def pyStrip (s : Str) : Str :=
  ((s.dropWhile isPySpace).reverse.dropWhile isPySpace).reverse

/-- Embedding of sep.join(xs): the pieces interleaved with the separator. -/
def pyJoin (sep : Str) : List Str → Str
  | [] => []
  | [x] => x
  | x :: y :: xs => x ++ sep ++ pyJoin sep (y :: xs)

/-- Text collected from the decoded segments by TranscriptionWorker.run:
each segment text is stripped and the results are joined with one space. -/
def joinedText (segs : List Str) : Str := pyJoin [' '] (segs.map pyStrip)

/-- One observation delivered to the UI over the worker signals. -/
inductive Obs where
  | progress (msg : Str)
  | finished (text : Str)
  | error (msg : Str)
deriving DecidableEq

/-- Terminal observation kinds named by the spec: a finished observation or
an explicit error observation; progress observations are not terminal. -/
def isTerminalObs : Obs → Bool
  | Obs.progress _ => false
  | Obs.finished _ => true
  | Obs.error _ => true

/-- Progress text emitted while loading the audio file. -/
def msgLoading : Str := ("Loading audio file...").data

/-- Progress text emitted before the decode call. -/
def msgProcessing : Str := ("Processing audio with Whisper...").data

/-- Progress text emitted on success. -/
def msgCompleted : Str := ("Transcription completed!").data

/-- Text the except block puts in front of every error observation. -/
def msgFailed : Str := ("Transcription failed: ").data

/-- Text of the FileNotFoundError raised for a missing audio artifact. -/
def msgFnf (path : Str) : Str := ("Audio file not found: ").data ++ path

/-- Text of the ValueError raised for an empty decode result. -/
def msgNoText : Str := ("No text was transcribed").data

/-- Lower-case needle from the spec wording about the missing-audio error. -/
def needleFnf : Str := ("audio file not found").data

/-- Character-wise lower casing, for case-insensitive containment claims. -/
def lowerStr (s : Str) : Str := s.map Char.toLower

/-- The two progress observations emitted before the decode call. -/
def progressPair : List Obs := [Obs.progress msgLoading, Obs.progress msgProcessing]

/-- Everything TranscriptionWorker.run leaves behind that the claims talk
about: the emitted observations in order, whether the decode capability of
the model was invoked, whether the audio artifact still exists after the
cleanup phase, and whether any exception escaped the method. -/
structure WorkerResult where
  obs : List Obs
  decodeCalled : Bool
  audioExistsAfter : Bool
  raised : Bool
deriving DecidableEq

/-- Embedding of TranscriptionWorker.run from src/transcriber.py.  Inputs:
the audio path, whether the audio artifact exists, the result of the opaque
decode call (segment texts, or the message of the exception it raised), the
cached replacement pairs, and whether the storage delete of the cleanup
phase succeeds.  The branches mirror the try block; every raising path
falls into the except block, which emits the error observation and a
finished observation carrying the empty string.  The finally block deletes
the artifact when it exists, swallowing a delete failure, so the artifact
remains only when it existed and the delete failed; no path re-raises. -/
def workerRun (audioFile : Str) (audioExists : Bool)
    (decode : Except Str (List Str)) (replacements : List (Str × Str))
    (removeOk : Bool) : WorkerResult :=
  if audioExists then
    match decode with
    | Except.error e =>
      { obs := progressPair ++ [Obs.error (msgFailed ++ e), Obs.finished []],
        decodeCalled := true, audioExistsAfter := audioExists && !removeOk,
        raised := false }
    | Except.ok segs =>
      if joinedText segs = [] then
        { obs := progressPair ++
            [Obs.error (msgFailed ++ msgNoText), Obs.finished []],
          decodeCalled := true, audioExistsAfter := audioExists && !removeOk,
          raised := false }
      else
        match apply_replacements (joinedText segs) replacements with
        | Except.error m =>
          { obs := progressPair ++
              [Obs.error (msgFailed ++ m), Obs.finished []],
            decodeCalled := true, audioExistsAfter := audioExists && !removeOk,
            raised := false }
        | Except.ok finalText =>
          { obs := progressPair ++
              [Obs.progress msgCompleted, Obs.finished finalText],
            decodeCalled := true, audioExistsAfter := audioExists && !removeOk,
            raised := false }
  else
    { obs := [Obs.error (msgFailed ++ msgFnf audioFile), Obs.finished []],
      decodeCalled := false, audioExistsAfter := audioExists && !removeOk,
      raised := false }

/-- State of WhisperTranscriber that the claims talk about: the model handle
(a generation number when loaded), a generation counter making fresh handles
distinguishable, whether a worker is currently running, and the usage
counter _transcription_count. -/
structure ManagerState where
  model : Option Nat
  gen : Nat
  workerRunning : Bool
  transcription_count : Nat
deriving DecidableEq

/-- Reload threshold MODEL_RELOAD_INTERVAL of WhisperTranscriber. -/
def MODEL_RELOAD_INTERVAL : Nat := 50

/-- Observable steps of the manager operations: the logged busy warning of a
rejected submission, the counter increment (carrying the post-increment
value), a completed synchronous reload, the starting-transcription progress
emission, and the dispatch of the worker. -/
inductive MgrEvent where
  | busy
  | inc (n : Nat)
  | reloaded
  | starting
  | dispatched
deriving DecidableEq

/-- Embedding of WhisperTranscriber.load_model: on success a fresh handle is
stored; on failure the exception is logged and re-raised (second component)
and the model field is left as it was. -/
def load_model (st : ManagerState) (loadOk : Bool) : ManagerState × Bool :=
  if loadOk then
    ({ st with model := some (st.gen + 1), gen := st.gen + 1 }, false)
  else (st, true)

/-- Embedding of WhisperTranscriber.reload_model: refuses while a worker is
running; otherwise drops the old handle, loads a fresh model, and only after
a successful load resets the usage counter to zero.  A load failure
propagates (raised flag) with the handle already dropped and the counter
untouched. -/
def reload_model (st : ManagerState) (loadOk : Bool) :
    ManagerState × List MgrEvent × Bool :=
  if st.workerRunning then (st, [], false)
  else
    let r := load_model { st with model := none } loadOk
    if r.2 then (r.1, [], true)
    else ({ r.1 with transcription_count := 0 }, [MgrEvent.reloaded], false)

/-- Embedding of WhisperTranscriber.cleanup: waits for a running worker and
drops the reference, releases the model handle, and resets the usage
counter; every step is guarded in the code, so cleanup never raises and is
modelled as a total function on the state. -/
def cleanup (st : ManagerState) : ManagerState :=
  { st with workerRunning := false, model := none, transcription_count := 0 }

/-- Embedding of WhisperTranscriber.transcribe_file: a running worker makes
the call a no-op apart from the logged busy warning; otherwise the usage
counter is incremented first, a synchronous reload is performed when the
post-increment counter reaches the threshold (propagating a reload failure),
the starting progress text is emitted, and the worker is dispatched. -/
def transcribe_file (st : ManagerState) (loadOk : Bool) :
    ManagerState × List MgrEvent × Bool :=
  if st.workerRunning then (st, [MgrEvent.busy], false)
  else
    let c := st.transcription_count + 1
    let st1 : ManagerState := { st with transcription_count := c }
    if MODEL_RELOAD_INTERVAL ≤ c then
      let r := reload_model st1 loadOk
      if r.2.2 then (r.1, MgrEvent.inc c :: r.2.1, true)
      else
        ({ r.1 with workerRunning := true },
          MgrEvent.inc c :: r.2.1 ++ [MgrEvent.starting, MgrEvent.dispatched],
          false)
    else
      ({ st1 with workerRunning := true },
        [MgrEvent.inc c, MgrEvent.starting, MgrEvent.dispatched], false)

/-- Manager state right after construction: custom words loaded and the
first model loaded, no worker, usage counter zero. -/
def initState : ManagerState :=
  (load_model { model := none, gen := 0, workerRunning := false,
                transcription_count := 0 } true).1

/-- A job finishing: the running worker stops (the state seen by the next
accepted submission). -/
def completeJob (st : ManagerState) : ManagerState :=
  { st with workerRunning := false }

/-- State after n accepted-and-completed submissions with successful loads
and no manual reload, starting from the freshly constructed manager. -/
def runCycles : Nat → ManagerState
  | 0 => initState
  | n + 1 => completeJob (transcribe_file (runCycles n) true).1

/-- Lower casing distributes over append. -/
lemma lowerStr_append (a b : Str) :
    lowerStr (a ++ b) = lowerStr a ++ lowerStr b :=
  List.map_append _ a b

/-- A template without any backslash expands to itself. -/
lemma parseTemplateAux_ok_of_no_bs :
    ∀ r : Str, '\\' ∉ r → parseTemplateAux false r = Except.ok r := by
  intro r
  induction r with
  | nil => intro _; rfl
  | cons c rest ih =>
    intro h
    have hc : ¬ c = '\\' := by
      intro hh
      exact h (hh ▸ List.mem_cons_self c rest)
    have hr : '\\' ∉ rest := fun hm => h (List.mem_cons_of_mem _ hm)
    simp [parseTemplateAux, hc, ih hr, Except.map]

set_option maxHeartbeats 2000000 in
/-- The only error texts a single escape item can produce. -/
lemma escItem_error_cases :
    ∀ (d : Char) (m : Str), escItem d = Except.error m →
      m = msgBadGroup ∨ m = msgBadEscape := by
  intro d m h
  unfold escItem at h
  split_ifs at h
  all_goals first
    | exact Except.noConfusion h
    | (cases h; exact Or.inl rfl)
    | (cases h; exact Or.inr rfl)

/-- The only error texts template expansion can produce. -/
lemma parseTemplateAux_error_cases :
    ∀ (r : Str) (b : Bool) (m : Str),
      parseTemplateAux b r = Except.error m →
      m = msgBadEscEnd ∨ m = msgBadGroup ∨ m = msgBadEscape := by
  intro r
  induction r with
  | nil =>
    intro b m h
    cases b
    · simp [parseTemplateAux] at h
    · simp [parseTemplateAux] at h
      exact Or.inl h.symm
  | cons c rest ih =>
    intro b m h
    cases b
    · by_cases hc : c = '\\'
      · simp only [parseTemplateAux, hc, if_pos] at h
        exact ih true m h
      · simp only [parseTemplateAux, hc, if_neg, ite_false] at h
        cases hr : parseTemplateAux false rest with
        | ok l => rw [hr] at h; simp [Except.map] at h
        | error me =>
          rw [hr] at h
          simp [Except.map] at h
          exact h ▸ ih false me hr
    · cases he : escItem c with
      | error me =>
        simp only [parseTemplateAux, he] at h
        cases h
        rcases escItem_error_cases c _ he with h1 | h1
        · exact Or.inr (Or.inl h1)
        · exact Or.inr (Or.inr h1)
      | ok pre =>
        simp only [parseTemplateAux, he] at h
        cases hr : parseTemplateAux false rest with
        | ok l => rw [hr] at h; simp [Except.map] at h
        | error me =>
          rw [hr] at h
          simp [Except.map] at h
          exact h ▸ ih false me hr

/-- The only error texts one re.sub application can produce. -/
lemma pyReSub_error_cases :
    ∀ (p r t m : Str), pyReSub p r t = Except.error m →
      m = msgBadEscEnd ∨ m = msgBadGroup ∨ m = msgBadEscape := by
  intro p r t m h
  unfold pyReSub at h
  cases hr : parseTemplate r with
  | ok l => rw [hr] at h; simp [Except.map] at h
  | error me =>
    rw [hr] at h
    simp [Except.map] at h
    exact h ▸ parseTemplateAux_error_cases r false me hr

/-- The only error texts the replacement fold can produce. -/
lemma foldlM_sub_error_cases :
    ∀ (reps : List (Str × Str)) (t m : Str),
      List.foldlM (fun acc pr => pyReSub pr.1 pr.2 acc) t reps =
        Except.error m →
      m = msgBadEscEnd ∨ m = msgBadGroup ∨ m = msgBadEscape := by
  intro reps
  induction reps with
  | nil => intro t m h; simp [List.foldlM, Pure.pure, Except.pure] at h
  | cons pr rest ih =>
    intro t m h
    simp only [List.foldlM] at h
    cases hp : pyReSub pr.1 pr.2 t with
    | error me =>
      rw [hp] at h
      simp [Bind.bind, Except.bind] at h
      exact h ▸ pyReSub_error_cases _ _ _ _ hp
    | ok t2 =>
      rw [hp] at h
      simp only [Bind.bind, Except.bind] at h
      exact ih t2 m h

/-- The only error texts apply_replacements can produce. -/
lemma apply_replacements_error_cases :
    ∀ (t : Str) (reps : List (Str × Str)) (m : Str),
      apply_replacements t reps = Except.error m →
      m = msgBadEscEnd ∨ m = msgBadGroup ∨ m = msgBadEscape := by
  intro t reps m h
  cases reps with
  | nil => simp [apply_replacements] at h
  | cons pr rest =>
    exact foldlM_sub_error_cases (pr :: rest) t m h

/-- With backslash-free replacement strings the fold agrees with the literal
substitution fold. -/
lemma foldlM_sub_ok_no_bs :
    ∀ (reps : List (Str × Str)) (t : Str), (∀ pr ∈ reps, '\\' ∉ pr.2) →
      List.foldlM (fun acc pr => pyReSub pr.1 pr.2 acc) t reps =
        Except.ok
          (List.foldl (fun acc pr => reSubLiteralCI pr.1 pr.2 acc) t reps) := by
  intro reps
  induction reps with
  | nil => intro t _; rfl
  | cons pr rest ih =>
    intro t h
    have hbs : '\\' ∉ pr.2 := h pr (List.mem_cons_self _ _)
    have hstep : pyReSub pr.1 pr.2 t = Except.ok (reSubLiteralCI pr.1 pr.2 t) := by
      unfold pyReSub parseTemplate
      rw [parseTemplateAux_ok_of_no_bs _ hbs]
      rfl
    simp only [List.foldlM, List.foldl, hstep, Bind.bind, Except.bind]
    exact ih _ (fun q hq => h q (List.mem_cons_of_mem _ hq))

/-- The artifact survives the cleanup phase only when it existed and the
delete failed, in every branch of the worker. -/
lemma workerRun_audioExistsAfter (p : Str) (ex : Bool)
    (d : Except Str (List Str)) (reps : List (Str × Str)) (rOk : Bool) :
    (workerRun p ex d reps rOk).audioExistsAfter = (ex && !rOk) := by
  unfold workerRun
  repeat' split
  all_goals rfl

/-- No branch of the worker lets an exception escape. -/
lemma workerRun_raised (p : Str) (ex : Bool) (d : Except Str (List Str))
    (reps : List (Str × Str)) (rOk : Bool) :
    (workerRun p ex d reps rOk).raised = false := by
  unfold workerRun
  repeat' split
  all_goals rfl

/-- Claim C5 counterexample: the claim says the substituted replacement is
treated as literal text, but the code hands the replacement to re.sub as a
substitution template, so the two-character replacement backslash-n is
delivered as a newline character, not literally. -/
theorem replacements_template_cex :
    apply_replacements (['a']) ([(['a'], ['\\', 'n'])]) =
      Except.ok (['\n']) ∧
    applyReplacementsSpecLiteral (['a']) ([(['a'], ['\\', 'n'])]) =
      ['\\', 'n'] ∧
    (Except.ok (['\n']) : Except Str Str) ≠ Except.ok (['\\', 'n']) := by
  decide

/-- Claim C5 (amended): for every non-empty decode result and vocabulary
document, each replacement pair is applied as a case-insensitive literal
substitution of the pattern, in insertion order; the replacement string is
interpreted as a substitution template, so it is substituted literally
exactly when it contains no backslash, in which case the application agrees
with the all-literal reading of the spec. -/
theorem replacements_literal_of_no_backslash :
    ∀ (text : Str) (reps : List (Str × Str)),
      (∀ pr ∈ reps, '\\' ∉ pr.2) →
      apply_replacements text reps =
        Except.ok (applyReplacementsSpecLiteral text reps) := by
  intro text reps h
  cases reps with
  | nil => rfl
  | cons pr rest =>
    exact foldlM_sub_ok_no_bs (pr :: rest) text h

/-- Claim C5 witness: the amended theorem applied at the teh-to-the example
document. -/
theorem replacements_literal_of_no_backslash_witness :
    apply_replacements (("TEH cat").data) [((("teh").data), (("the").data))] =
      Except.ok
        (applyReplacementsSpecLiteral (("TEH cat").data)
          [((("teh").data), (("the").data))]) :=
  replacements_literal_of_no_backslash _ _ (by decide)

/-- Claim C6 counterexample: applying a replacement document a second time
to the output of the first application is not always a no-op; the single
pair a-to-aa doubles the text again on the second application. -/
theorem replacements_idempotent_cex :
    apply_replacements (['a']) ([(['a'], ['a', 'a'])]) =
      Except.ok (['a', 'a']) ∧
    apply_replacements (['a', 'a']) ([(['a'], ['a', 'a'])]) =
      Except.ok (['a', 'a', 'a', 'a']) ∧
    (['a', 'a', 'a', 'a'] : Str) ≠ ['a', 'a'] := by
  decide

/-- Claim C6 (amended): idempotence does not hold for every vocabulary
document, but it does hold for the example the spec gives: the pair
teh-to-the maps TEH cat (upper case input) to the cat, and re-running the
replacement on the already-correct output returns it unchanged. -/
theorem replacements_teh_the_example :
    apply_replacements (("TEH cat").data) [((("teh").data), (("the").data))] =
      Except.ok (("the cat").data) ∧
    apply_replacements (("the cat").data) [((("teh").data), (("the").data))] =
      Except.ok (("the cat").data) := by
  decide

/-- Every observation of the progress pair is a progress observation. -/
lemma progressPair_all_progress :
    ∀ o ∈ progressPair, ∃ mp, o = Obs.progress mp := by
  intro o ho
  simp [progressPair] at ho
  rcases ho with h | h <;> exact ⟨_, h⟩

/-- Claim C2 counterexample: on a failing job the worker emits an explicit
error observation and then a finished observation carrying the empty
string; both are terminal observation kinds named by the claim, so the job
delivers two terminal observations, not exactly one. -/
theorem worker_two_terminal_cex :
    ((workerRun (['f']) false (Except.ok []) [] true).obs.filter
        isTerminalObs).length = 2 ∧
    ¬ ((workerRun (['f']) false (Except.ok []) [] true).obs.filter
        isTerminalObs).length = 1 := by
  decide

/-- Claim C2 (amended): for every job the observations are zero or more
progress observations followed by a terminal block, which is either exactly
one finished observation carrying the result text (success) or exactly one
explicit error observation immediately followed by exactly one finished
observation carrying the empty string (failure); in both cases there is
exactly one finished observation and it is the last observation of the
job. -/
theorem worker_obs_shape :
    ∀ (path : Str) (ex : Bool) (decode : Except Str (List Str))
      (reps : List (Str × Str)) (rOk : Bool),
      ∃ ps : List Obs,
        (∀ o ∈ ps, ∃ mp, o = Obs.progress mp) ∧
        ((∃ t, (workerRun path ex decode reps rOk).obs =
            ps ++ [Obs.finished t]) ∨
         (∃ m, (workerRun path ex decode reps rOk).obs =
            ps ++ [Obs.error m, Obs.finished []])) := by
  intro path ex decode reps rOk
  cases ex with
  | false =>
    refine ⟨[], by simp, Or.inr ⟨msgFailed ++ msgFnf path, ?_⟩⟩
    rfl
  | true =>
    cases decode with
    | error e =>
      exact ⟨progressPair, progressPair_all_progress,
        Or.inr ⟨msgFailed ++ e, rfl⟩⟩
    | ok segs =>
      by_cases hj : joinedText segs = []
      · refine ⟨progressPair, progressPair_all_progress,
          Or.inr ⟨msgFailed ++ msgNoText, ?_⟩⟩
        simp [workerRun, hj]
      · cases ha : apply_replacements (joinedText segs) reps with
        | error m =>
          refine ⟨progressPair, progressPair_all_progress,
            Or.inr ⟨msgFailed ++ m, ?_⟩⟩
          simp [workerRun, hj, ha]
        | ok t =>
          refine ⟨progressPair ++ [Obs.progress msgCompleted], ?_,
            Or.inl ⟨t, ?_⟩⟩
          · intro o ho
            simp [progressPair] at ho
            rcases ho with h | h | h <;> exact ⟨_, h⟩
          · simp [workerRun, hj, ha, progressPair]

/-- Claim C4: for every job whose audio path does not exist, the worker
immediately emits an error observation whose text contains (up to case) the
words audio file not found, then a finished observation carrying the empty
string, and the decode capability of the model is never invoked. -/
theorem missing_audio_immediate_error :
    ∀ (path : Str) (decode : Except Str (List Str))
      (reps : List (Str × Str)) (rOk : Bool),
      (workerRun path false decode reps rOk).obs =
        [Obs.error (msgFailed ++ msgFnf path), Obs.finished []] ∧
      (∃ pre post,
        lowerStr (msgFailed ++ msgFnf path) = pre ++ needleFnf ++ post) ∧
      (workerRun path false decode reps rOk).decodeCalled = false := by
  intro path decode reps rOk
  refine ⟨rfl, ⟨lowerStr msgFailed, ((": ").data) ++ lowerStr path, ?_⟩, rfl⟩
  unfold msgFnf
  rw [lowerStr_append, lowerStr_append]
  have hfnf : lowerStr (("Audio file not found: ").data) =
      needleFnf ++ ((": ").data) := by decide
  rw [hfnf]
  simp [List.append_assoc]

/-- Claim C7: for every job, whatever the outcome, the audio artifact no
longer exists after the cleanup phase whenever the storage delete succeeds
(the claim itself allows the delete to fail, in which case the failure is
only logged), and no exception ever escapes the worker. -/
theorem audio_deleted_after_job :
    ∀ (path : Str) (ex : Bool) (decode : Except Str (List Str))
      (reps : List (Str × Str)),
      (workerRun path ex decode reps true).audioExistsAfter = false ∧
      ∀ rOk : Bool, (workerRun path ex decode reps rOk).raised = false := by
  intro path ex decode reps
  constructor
  · rw [workerRun_audioExistsAfter]
    simp
  · intro rOk
    exact workerRun_raised path ex decode reps rOk

/-- Claim C10: with the audio artifact present and a successful decode, the
empty outcome (the error whose text is no text was transcribed) occurs
exactly when the space-join of the stripped segment texts is empty; in
particular two all-whitespace segments join to a single separator space,
which is non-empty, so that job completes with the whitespace text. -/
theorem empty_outcome_iff_join_empty :
    ∀ (path : Str) (segs : List Str) (reps : List (Str × Str)) (rOk : Bool),
      (Obs.error (msgFailed ++ msgNoText) ∈
          (workerRun path true (Except.ok segs) reps rOk).obs ↔
        joinedText segs = []) ∧
      (workerRun (['f']) true (Except.ok [[], [' ', ' ']]) [] true).obs =
        progressPair ++ [Obs.progress msgCompleted, Obs.finished ([' '])] := by
  intro path segs reps rOk
  constructor
  · by_cases hj : joinedText segs = []
    · simp [workerRun, hj, progressPair]
    · cases ha : apply_replacements (joinedText segs) reps with
      | error m =>
        simp [workerRun, hj, ha, progressPair]
        intro heq
        have hm : msgNoText = m := heq
        rcases apply_replacements_error_cases _ _ _ ha with h1 | h1 | h1
        · exact absurd (hm.trans h1) (by decide)
        · exact absurd (hm.trans h1) (by decide)
        · exact absurd (hm.trans h1) (by decide)
      | ok t =>
        simp [workerRun, hj, ha, progressPair]
  · decide

/-- Claim C3: a submission made while a worker is active is a no-op: the
state is returned unchanged (no counter increment, same model handle, no
second worker), nothing is raised, and the only observable is the logged
busy warning. -/
theorem submit_busy_noop :
    ∀ (st : ManagerState) (loadOk : Bool), st.workerRunning = true →
      transcribe_file st loadOk = (st, [MgrEvent.busy], false) := by
  intro st loadOk h
  simp [transcribe_file, h]

/-- Claim C3 witness: the busy no-op at a concrete busy state. -/
theorem submit_busy_noop_witness :
    transcribe_file { model := some 1, gen := 1, workerRunning := true,
                      transcription_count := 7 } true =
      ({ model := some 1, gen := 1, workerRunning := true,
         transcription_count := 7 }, [MgrEvent.busy], false) :=
  submit_busy_noop _ _ rfl

/-- Claim C9: cleanup is idempotent, never raises (it is a total function of
the state), and leaves the manager with no model handle and a zero usage
counter after each call. -/
theorem cleanup_idempotent :
    ∀ st : ManagerState,
      cleanup (cleanup st) = cleanup st ∧
      (cleanup st).model = none ∧
      (cleanup st).transcription_count = 0 := by
  intro st
  exact ⟨rfl, rfl, rfl⟩

/-- Claim C8 counterexample: the claim says the usage counter is reset to
zero before the load sequence, so that the counter is zero even when the
reload raises; in the code the reset happens after the load call, so a
fatal load failure leaves the counter at its old value (here 50), not
zero. -/
theorem reload_counter_cex :
    (reload_model { model := some 1, gen := 1, workerRunning := false,
                    transcription_count := 50 } false).2.2 = true ∧
    (reload_model { model := some 1, gen := 1, workerRunning := false,
                    transcription_count := 50 } false).1.transcription_count
      = 50 ∧
    ¬ (reload_model { model := some 1, gen := 1, workerRunning := false,
                      transcription_count := 50 } false).1.transcription_count
      = 0 := by
  decide

/-- Claim C8 (amended): a reload with no worker running first releases the
current handle and then performs the load sequence; on success the usage
counter is reset to zero afterwards, so the counter is zero when reload
returns; on a fatal load failure the error propagates, the manager is left
without a usable handle, and the usage counter keeps its prior value. -/
theorem reload_counter_behavior :
    ∀ st : ManagerState, st.workerRunning = false →
      ((reload_model st true).1.transcription_count = 0 ∧
       (reload_model st true).1.model = some (st.gen + 1) ∧
       (reload_model st true).2.2 = false) ∧
      ((reload_model st false).1.model = none ∧
       (reload_model st false).1.transcription_count =
         st.transcription_count ∧
       (reload_model st false).2.2 = true) := by
  intro st h
  simp [reload_model, load_model, h]

/-- Claim C8 witness: the amended reload behaviour at a concrete state with
counter 50. -/
theorem reload_counter_behavior_witness :
    ((reload_model { model := some 1, gen := 1, workerRunning := false,
                     transcription_count := 50 } true).1.transcription_count
        = 0 ∧
     (reload_model { model := some 1, gen := 1, workerRunning := false,
                     transcription_count := 50 } true).1.model
        = some (1 + 1) ∧
     (reload_model { model := some 1, gen := 1, workerRunning := false,
                     transcription_count := 50 } true).2.2 = false) ∧
    ((reload_model { model := some 1, gen := 1, workerRunning := false,
                     transcription_count := 50 } false).1.model = none ∧
     (reload_model { model := some 1, gen := 1, workerRunning := false,
                     transcription_count := 50 } false).1.transcription_count
        = 50 ∧
     (reload_model { model := some 1, gen := 1, workerRunning := false,
                     transcription_count := 50 } false).2.2 = true) :=
  reload_counter_behavior _ rfl

/-- Claim C1: on every accepted submission the usage counter is incremented
first and the worker is dispatched last, with a synchronous reload in
between exactly when the post-increment counter reaches the threshold;
immediately after a successful reload the counter is zero; and in the run
of fifty accepted-and-completed submissions from a fresh manager, the first
forty-nine dispatch without a reload leaving the counter at their index,
while the fiftieth increments the counter to fifty, reloads synchronously
before dispatching, and leaves the counter at zero. -/
theorem counter_reload_policy :
    (∀ st : ManagerState, st.workerRunning = false →
      (transcribe_file st true).2.1 =
        MgrEvent.inc (st.transcription_count + 1) ::
          (if MODEL_RELOAD_INTERVAL ≤ st.transcription_count + 1 then
            [MgrEvent.reloaded] else []) ++
          [MgrEvent.starting, MgrEvent.dispatched]) ∧
    (∀ st : ManagerState, st.workerRunning = false →
      (reload_model st true).1.transcription_count = 0) ∧
    (∀ i : Nat, i < 50 → 1 ≤ i →
      (transcribe_file (runCycles (i - 1)) true).2.1 =
        [MgrEvent.inc i, MgrEvent.starting, MgrEvent.dispatched] ∧
      (runCycles i).transcription_count = i) ∧
    ((transcribe_file (runCycles 49) true).2.1 =
      [MgrEvent.inc 50, MgrEvent.reloaded, MgrEvent.starting,
        MgrEvent.dispatched] ∧
     (transcribe_file (runCycles 49) true).1.transcription_count = 0 ∧
     (runCycles 50).transcription_count = 0) := by
  refine ⟨?_, ?_, by decide, by decide⟩
  · intro st h
    by_cases hM : MODEL_RELOAD_INTERVAL ≤ st.transcription_count + 1 <;>
      simp [transcribe_file, reload_model, load_model, h, hM]
  · intro st h
    simp [reload_model, load_model, h]

/-- Claim C1 witness: the accepted-submission event shape and the
post-reload counter, both at the freshly constructed manager state. -/
theorem counter_reload_policy_witness :
    (transcribe_file initState true).2.1 =
      MgrEvent.inc (initState.transcription_count + 1) ::
        (if MODEL_RELOAD_INTERVAL ≤ initState.transcription_count + 1 then
          [MgrEvent.reloaded] else []) ++
        [MgrEvent.starting, MgrEvent.dispatched] ∧
    (reload_model initState true).1.transcription_count = 0 :=
  ⟨counter_reload_policy.1 initState rfl,
   counter_reload_policy.2.1 initState rfl⟩

end TellySpelly

